import Mathlib

/-!
# Verification of the CSRF / authenticated-fetch layer of CKS-FrontEnd

Shallow embedding of the client-side authenticated request layer:

* `getCsrfCookie` (lib/fetchWithCsrf.ts) — reads and percent-decodes the
  `XSRF-TOKEN` cookie out of `document.cookie`;
* `needsCsrf`, `fetchWithCsrf` (lib/fetchWithCsrf.ts) — the CSRF
  attachment / priming / one-shot-retry wrapper around `fetch`;
* `fetchMe` (lib/auth.ts) — the session verifier;
* the auth-flow submit handlers (login, register, forgot-password,
  reset-password, resend-verification, logout).

JavaScript strings are modelled as Lean `String` / `List Char`
(sequences of Unicode scalar values).  `decodeURIComponent` is modelled
by the ECMAScript *Decode* algorithm with an empty reserved set:
`%`-escapes are decoded to bytes, and each maximal escape sequence must
form one valid UTF-8 encoded code point, otherwise a `URIError` is
thrown.  Network and cookie-jar nondeterminism is an explicit `World`
oracle, and the wrapper returns the list of network events it performed,
so that "exactly one priming call", "at most one retry" and "no network
call" are statable.
-/

/-- Errors a modelled JS computation can throw / a promise can reject with. -/
inductive JsError where
  | uriError      -- `decodeURIComponent` on a malformed escape
  | networkError  -- transport-level `fetch` rejection
  deriving Repr, DecidableEq

/-! ## Percent decoding (`decodeURIComponent`) -/

/-- Value of a hex digit, `none` for a non-hex character
(ECMAScript accepts both cases). -/
def hexDigitVal (c : Char) : Option Nat :=
  if '0' ≤ c ∧ c ≤ '9' then some (c.toNat - 48)
  else if 'A' ≤ c ∧ c ≤ 'F' then some (c.toNat - 55)
  else if 'a' ≤ c ∧ c ≤ 'f' then some (c.toNat - 87)
  else none

/-- A lexed element of a URI-encoded string: a literal character or the
byte of one `%XY` escape. -/
inductive UriItem where
  | raw (c : Char)
  | esc (b : Nat)
  deriving Repr, DecidableEq

/-- Lex a string into literal characters and `%XY` escape bytes; a `%`
not followed by two hex digits throws (ECMAScript Decode, step for `%`). -/
def uriLex : List Char → Except JsError (List UriItem)
  | [] => .ok []
  | c :: r =>
    if c = '%' then
      match r with
      | c1 :: c2 :: r2 =>
        match hexDigitVal c1, hexDigitVal c2 with
        | some a, some b =>
          match uriLex r2 with
          | .ok t => .ok (.esc (16 * a + b) :: t)
          | .error e => .error e
        | _, _ => .error .uriError
      | _ => .error .uriError
    else
      match uriLex r with
      | .ok t => .ok (.raw c :: t)
      | .error e => .error e

/-- Is `b` a UTF-8 continuation byte? -/
def isCont (b : Nat) : Bool := 0x80 ≤ b ∧ b < 0xC0

/-- Decode the lexed items: literal characters pass through; escape
bytes must form complete, minimal-length UTF-8 code-point encodings
(no overlong forms, no surrogates, ≤ U+10FFFF), matching the validity
table of the ECMAScript Decode algorithm.  The first argument is the
state of a partially decoded multi-byte sequence: remaining
continuation-byte count, accumulated bits, and the minimal admissible
code point (overlong rejection); a literal character or the end of the
input inside a sequence is an error, as in ECMAScript. -/
def uriDecodeAux : Option (Nat × Nat × Nat) → List UriItem → Except JsError (List Char)
  | none, [] => .ok []
  | some _, [] => .error .uriError
  | none, .raw c :: r =>
    match uriDecodeAux none r with
    | .ok t => .ok (c :: t)
    | .error e => .error e
  | none, .esc b :: r =>
    if b < 0x80 then
      match uriDecodeAux none r with
      | .ok t => .ok (Char.ofNat b :: t)
      | .error e => .error e
    else if b < 0xC0 then .error .uriError
    else if b < 0xE0 then uriDecodeAux (some (1, b - 0xC0, 0x80)) r
    else if b < 0xF0 then uriDecodeAux (some (2, b - 0xE0, 0x800)) r
    else if b < 0xF8 then uriDecodeAux (some (3, b - 0xF0, 0x10000)) r
    else .error .uriError
  | some _, .raw _ :: _ => .error .uriError
  | some (n, acc, mn), .esc b :: r =>
    if isCont b then
      if n ≤ 1 then
        if mn ≤ acc * 64 + (b - 0x80) ∧
           ¬(0xD800 ≤ acc * 64 + (b - 0x80) ∧ acc * 64 + (b - 0x80) ≤ 0xDFFF) ∧
           acc * 64 + (b - 0x80) ≤ 0x10FFFF then
          match uriDecodeAux none r with
          | .ok t => .ok (Char.ofNat (acc * 64 + (b - 0x80)) :: t)
          | .error e => .error e
        else .error .uriError
      else uriDecodeAux (some (n - 1, acc * 64 + (b - 0x80), mn)) r
    else .error .uriError

/-- Decode a fully lexed item stream. -/
def uriDecodeItems (items : List UriItem) : Except JsError (List Char) :=
  uriDecodeAux none items

/-- `decodeURIComponent` over a character list. -/
def decodeURIComponent (s : List Char) : Except JsError (List Char) :=
  match uriLex s with
  | .ok items => uriDecodeItems items
  | .error e => .error e

/-! ## The cookie regex `/(?:^|;\s*)XSRF-TOKEN=([^;]*)/` -/

/-- ECMAScript `\s` character class (WhiteSpace ∪ LineTerminator). -/
def jsWs (c : Char) : Bool :=
  c.toNat = 0x9 ∨ c.toNat = 0xA ∨ c.toNat = 0xB ∨ c.toNat = 0xC ∨ c.toNat = 0xD ∨
  c.toNat = 0x20 ∨ c.toNat = 0xA0 ∨ c.toNat = 0x1680 ∨
  (0x2000 ≤ c.toNat ∧ c.toNat ≤ 0x200A) ∨
  c.toNat = 0x2028 ∨ c.toNat = 0x2029 ∨ c.toNat = 0x202F ∨ c.toNat = 0x205F ∨
  c.toNat = 0x3000 ∨ c.toNat = 0xFEFF

/-- The literal part `XSRF-TOKEN=` of the cookie regex. -/
def xsrfName : List Char := "XSRF-TOKEN=".data

/-- Try to match `XSRF-TOKEN=([^;]*)` at the head of `s`; on success
return the capture (the greedy run of non-`;` characters). -/
def captureAt (s : List Char) : Option (List Char) :=
  if xsrfName.isPrefixOf s then some ((s.drop xsrfName.length).takeWhile (fun c => c ≠ ';')) else none

/-- Scan for the leftmost position where the `;\s*XSRF-TOKEN=` branch of
the regex matches (the `^` branch is only tried at position 0, by
`cookieMatch`).  `\s*` is greedy, and since `X` is not a whitespace
character no backtracking into the `\s*` can succeed, so dropping the
maximal whitespace run is exact. -/
def scanCookie : List Char → Option (List Char)
  | [] => none
  | c :: rest =>
    if c = ';' then
      match captureAt (rest.dropWhile jsWs) with
      | some v => some v
      | none => scanCookie rest
    else scanCookie rest

/-- First match of `/(?:^|;\s*)XSRF-TOKEN=([^;]*)/` against `s`:
capture group 1, or `none` when the regex does not match. -/
def cookieMatch (s : List Char) : Option (List Char) :=
  match captureAt s with
  | some v => some v
  | none => scanCookie s

/-- `getCsrfCookie` (lib/fetchWithCsrf.ts):
`document.cookie.match(/(?:^|;\s*)XSRF-TOKEN=([^;]*)/)`, then
`decodeURIComponent(m[1])` when matched, else `null`.  The argument is
the ambient `document.cookie` string; a thrown `URIError` from
`decodeURIComponent` is the `.error` case. -/
def getCsrfCookie (cookie : String) : Except JsError (Option String) :=
  match cookieMatch cookie.data with
  | some v =>
    match decodeURIComponent v with
    | .ok d => .ok (some ⟨d⟩)
    | .error e => .error e
  | none => .ok none

/-! ## `encodeURIComponent` (for the round-trip property) -/

/-- The characters `encodeURIComponent` leaves unescaped:
ASCII alphanumerics and `- _ . ! ~ * ' ( )`. -/
def uriUnreserved (c : Char) : Bool :=
  ('A' ≤ c ∧ c ≤ 'Z') ∨ ('a' ≤ c ∧ c ≤ 'z') ∨ ('0' ≤ c ∧ c ≤ '9') ∨
  c = '-' ∨ c = '_' ∨ c = '.' ∨ c = '!' ∨ c = '~' ∨ c = '*' ∨
  c = Char.ofNat 39 ∨ c = '(' ∨ c = ')'

/-- UTF-8 encoding of a code point. -/
def utf8Bytes (n : Nat) : List Nat :=
  if n < 0x80 then [n]
  else if n < 0x800 then [0xC0 + n / 64, 0x80 + n % 64]
  else if n < 0x10000 then [0xE0 + n / 4096, 0x80 + (n / 64) % 64, 0x80 + n % 64]
  else [0xF0 + n / 262144, 0x80 + (n / 4096) % 64, 0x80 + (n / 64) % 64, 0x80 + n % 64]

/-- Upper-case hex digit of `n < 16`. -/
def hexUpper (n : Nat) : Char :=
  if n < 10 then Char.ofNat (48 + n) else Char.ofNat (55 + n)

/-- `%XY` escape of one byte. -/
def escByte (b : Nat) : List Char := ['%', hexUpper (b / 16), hexUpper (b % 16)]

/-- `encodeURIComponent` over a character list: unreserved characters
pass through, every other character is replaced by the `%XY` escapes of
its UTF-8 bytes. -/
def encodeURIComponent (s : List Char) : List Char :=
  (s.map (fun c => if uriUnreserved c then [c] else ((utf8Bytes c.toNat).map escByte).flatten)).flatten

/-! ## Request model (`RequestInit`, headers as JS object spread) -/

/-- The fields of a `RequestInit` literal used by the repository.  A JS
`headers` object literal is an insertion-ordered association list of
case-sensitive keys; an absent `headers` is the empty list (the source
spreads `init.headers || {}`). -/
structure RequestInit where
  method : Option String := none
  headers : List (String × String) := []
  body : Option String := none
  credentials : Option String := none
  cache : Option String := none
  signal : Option String := none
  deriving Repr, DecidableEq

/-- JS object-spread update `{ ...hs, k: v }`: if `k` is already a key
its value is replaced in place, otherwise `(k, v)` is appended. -/
def setHeader (hs : List (String × String)) (k v : String) : List (String × String) :=
  if hs.any (fun p => p.1 = k) then hs.map (fun p => if p.1 = k then (k, v) else p)
  else hs ++ [(k, v)]

/-- Look a key up in a headers object. -/
def getHeader (hs : List (String × String)) (k : String) : Option String :=
  (hs.find? (fun p => p.1 = k)).map (fun p => p.2)

/-- Character-wise upper-casing (`Char.toUpper` upcases the ASCII
letters; JS `toUpperCase` agrees on ASCII, which covers every HTTP
method name). -/
def jsToUpper (s : String) : String := ⟨s.data.map Char.toUpper⟩

/-- `needsCsrf` (lib/fetchWithCsrf.ts):
`(method ?? "GET").toUpperCase()` is mutating unless it is
`GET`, `HEAD` or `OPTIONS`. -/
def needsCsrf (method : Option String) : Bool :=
  let m := jsToUpper (method.getD "GET")
  m ≠ "GET" && m ≠ "HEAD" && m ≠ "OPTIONS"

/-- JS truthiness of a `string | null` value: `null` and `""` are falsy. -/
def isFalsy : Option String → Bool
  | none => true
  | some s => s.data.isEmpty

/-! ## The network / cookie-jar oracle and event traces -/

/-- One observable step of a wrapper call.  `prime` is the
`primeCsrfCookie` GET (its `?ts=` cache-buster query is irrelevant to
every property and not modelled); `tick` is the explicit
`await Promise.resolve()` scheduling yield; `send url init` is a `fetch`
of the caller's resource with the given init (recorded even when the
fetch ends in a transport rejection). -/
inductive Event where
  | prime
  | tick
  | send (url : String) (init : RequestInit)
  deriving Repr, DecidableEq

/-- Environment oracle for one `fetchWithCsrf` call: the ambient
`document.cookie` at each of the three possible read points, and the
outcome of each of the two possible main fetches (`some status` for a
response, `none` for a transport-level rejection).  Priming is
best-effort (`.catch(() => {})` in the source), so a failed primer is
simply a world whose post-priming cookie string is unchanged. -/
structure World where
  cookie0 : String            -- `document.cookie` at the first read
  cookiePrimed : String       -- after `primeCsrfCookie()` + the yield
  resp1 : Option Nat          -- first `fetch(input, init)`
  cookieRetryPrimed : String  -- after the retry-path `primeCsrfCookie()`
  resp2 : Option Nat          -- retry `fetch(input, retryInit)`
  deriving Repr, DecidableEq

/-- Result of a modelled `fetchWithCsrf` call: the settled promise (a
response status or a thrown error), the full trace of network/scheduler
events, and the caller's `init` object as left behind (the wrapper
mutates it in place). -/
structure FwcOut where
  outcome : Except JsError Nat
  events : List Event
  final : RequestInit
  deriving Repr

/-- Second half of `fetchWithCsrf`, from `const res = await fetch(input, init)`
on: the first send, then the one-shot 403 retry (`primeCsrfCookie`,
re-read `getCsrfCookie() ?? ""`, rebuild `retryInit` by spread, send). -/
def fetchAndRetry (w : World) (input : String) (init2 : RequestInit) (evs : List Event) : FwcOut :=
  let evs1 := evs ++ [.send input init2]
  match w.resp1 with
  | none => { outcome := .error .networkError, events := evs1, final := init2 }
  | some st1 =>
    if st1 = 403 ∧ needsCsrf init2.method then
      match getCsrfCookie w.cookieRetryPrimed with
      | .error e => { outcome := .error e, events := evs1 ++ [.prime], final := init2 }
      | .ok t =>
        let retryInit := { init2 with headers := setHeader init2.headers "X-XSRF-TOKEN" (t.getD "") }
        match w.resp2 with
        | none => { outcome := .error .networkError,
                    events := evs1 ++ [.prime, .send input retryInit], final := init2 }
        | some st2 => { outcome := .ok st2,
                        events := evs1 ++ [.prime, .send input retryInit], final := init2 }
    else { outcome := .ok st1, events := evs1, final := init2 }

/-- `fetchWithCsrf` (lib/fetchWithCsrf.ts).  Mutates the caller's init:
`credentials = "include"`, `cache = cache ?? "no-store"`; when the
method is mutating, reads the token, primes + yields + re-reads when the
first read was falsy, and attaches `X-XSRF-TOKEN: token ?? ""` by object
spread; sends; retries once on a 403 response. -/
def fetchWithCsrf (w : World) (input : String) (init0 : RequestInit) : FwcOut :=
  let init1 := { init0 with credentials := some "include",
                            cache := some (init0.cache.getD "no-store") }
  if needsCsrf init1.method then
    match getCsrfCookie w.cookie0 with
    | .error e => { outcome := .error e, events := [], final := init1 }
    | .ok t0 =>
      if isFalsy t0 then
        match getCsrfCookie w.cookiePrimed with
        | .error e => { outcome := .error e, events := [.prime, .tick], final := init1 }
        | .ok t1 =>
          fetchAndRetry w input
            { init1 with headers := setHeader init1.headers "X-XSRF-TOKEN" (t1.getD "") }
            [.prime, .tick]
      else
        fetchAndRetry w input
          { init1 with headers := setHeader init1.headers "X-XSRF-TOKEN" (t0.getD "") }
          []
  else fetchAndRetry w input init1 []

/-- The `fetch` attempts recorded in a trace. -/
def sendsOf (evs : List Event) : List (String × RequestInit) :=
  evs.filterMap (fun e => match e with | .send u i => some (u, i) | _ => none)

/-- The priming calls recorded in a trace. -/
def primesOf (evs : List Event) : List Event :=
  evs.filter (fun e => e = .prime)

/-! ## Session verifier (`fetchMe`, lib/auth.ts) -/

/-- Outcome of the single `fetch("/api/auth/me", ...)` call (made with
`credentials: "include"` and `cache: "no-store"`): a transport
rejection, or a response with a status and a raw body. -/
inductive FetchOutcome where
  | networkError
  | response (status : Nat) (body : String)
  deriving Repr, DecidableEq

/-- `Response.ok`: status in the inclusive range 200–299. -/
def resOk (status : Nat) : Bool := 200 ≤ status ∧ status ≤ 299

/-- What `fetchMe` resolves to: the literal `{ authenticated: false }`
object, or the value `res.json()` yields for the given response body
(kept opaque — no claim inspects the parsed session fields). -/
inductive MeResult where
  | authFalse
  | jsonOf (body : String)
  deriving Repr, DecidableEq

/-- `fetchMe` (lib/auth.ts): any non-ok status returns
`{ authenticated: false }`; an ok status returns `res.json()`; a
transport rejection propagates (there is no catch in the source). -/
def fetchMe : FetchOutcome → Except JsError MeResult
  | .networkError => .error .networkError
  | .response st body => if resOk st then .ok (.jsonOf body) else .ok .authFalse

/-! ## Auth-flow submit handlers -/

/-- JS `String.prototype.trim`: strip WhiteSpace ∪ LineTerminator
(the same class as `\s`) from both ends. -/
def jsTrim (s : String) : String :=
  ⟨((s.data.dropWhile jsWs).reverse.dropWhile jsWs).reverse⟩

/-- One `"k":"v"` field of a stringified flat object.  (The
quote-escaping done by `JSON.stringify` inside field values is not
modelled; no claim inspects body contents.) -/
def jsonField (k v : String) : String := "\"" ++ k ++ "\":\"" ++ v ++ "\""

/-- `JSON.stringify` of a flat object, given its rendered fields. -/
def jsonObj (fields : List String) : String :=
  "\x7b" ++ String.intercalate "," fields ++ "\x7d"

/-- The init object the login page passes to `fetchWithCsrf`
(app/login, `onSubmit`). -/
def loginInit (email password : String) : RequestInit :=
  { method := some "POST",
    headers := [("Content-Type", "application/json")],
    body := some (jsonObj [jsonField "email" email, jsonField "password" password]) }

/-- Login `onSubmit`, network part:
`fetchWithCsrf(apiBase + "/api/auth/login", { method: "POST", ... })`. -/
def loginSubmit (w : World) (apiBase email password : String) : FwcOut :=
  fetchWithCsrf w (apiBase ++ "/api/auth/login") (loginInit email password)

/-- Forgot-password `onSubmit`, network part:
`fetchWithCsrf(apiBase + "/api/auth/forgot-password", ...)` with the
trimmed email in the body. -/
def forgotPasswordSubmit (w : World) (apiBase email : String) : FwcOut :=
  fetchWithCsrf w (apiBase ++ "/api/auth/forgot-password")
    { method := some "POST",
      headers := [("Content-Type", "application/json")],
      body := some (jsonObj [jsonField "email" (jsTrim email)]) }

/-- Resend-verification `onSubmit`, network part:
`fetchWithCsrf(apiBase + "/api/auth/resend-verification", ...)` with an
abort signal in the init. -/
def resendVerificationSubmit (w : World) (apiBase email sig : String) : FwcOut :=
  fetchWithCsrf w (apiBase ++ "/api/auth/resend-verification")
    { method := some "POST",
      headers := [("Content-Type", "application/json")],
      body := some (jsonObj [jsonField "email" (jsTrim email)]),
      signal := some sig }

/-! ### Reset-password page (app/auth/reset-password/page.tsx) -/

/-- The two form fields of the reset-password page. -/
structure ResetForm where
  password : String
  confirmPassword : String
  deriving Repr, DecidableEq

/-- `passwordIssues` of the reset-password page: each failed rule
contributes its message.  (`pw.length` is the UTF-16 length in JS and
the scalar count here; they agree outside astral-plane characters, and
no claim depends on length.) -/
def passwordIssues (pw : String) : List String :=
  (if pw.length < 8 ∨ pw.length > 64 then ["be 8–64 characters"] else []) ++
  (if ¬ pw.data.any (fun c => 'a' ≤ c ∧ c ≤ 'z') then ["include a lowercase letter"] else []) ++
  (if ¬ pw.data.any (fun c => 'A' ≤ c ∧ c ≤ 'Z') then ["include an uppercase letter"] else []) ++
  (if ¬ pw.data.any (fun c => '0' ≤ c ∧ c ≤ '9') then ["include a number"] else []) ++
  (if ¬ pw.data.any (fun c => ¬ (('A' ≤ c ∧ c ≤ 'Z') ∨ ('a' ≤ c ∧ c ≤ 'z') ∨ ('0' ≤ c ∧ c ≤ '9')))
   then ["include a special character"] else []) ++
  (if pw.data.any (fun c => jsWs c) then ["not contain spaces"] else [])

/-- The `Errors` object built by `validate` on the reset-password page
(a key is present exactly when its field is `some`). -/
structure ResetErrors where
  password : Option String := none
  confirmPassword : Option String := none
  deriving Repr, DecidableEq

/-- `validate` of the reset-password page. -/
def validateReset (f : ResetForm) : ResetErrors :=
  let pwErr : Option String :=
    if f.password.isEmpty then some "Password is required."
    else
      let issues := passwordIssues f.password
      if issues.isEmpty then none
      else some ("Password must " ++ String.intercalate ", " issues ++ ".")
  let cpErr : Option String :=
    if f.confirmPassword.isEmpty then some "Please confirm your password."
    else if f.password ≠ f.confirmPassword then some "Passwords do not match."
    else none
  { password := pwErr, confirmPassword := cpErr }

/-- `Object.keys(err).length > 0` for a `ResetErrors` object. -/
def hasResetErrors (e : ResetErrors) : Bool :=
  e.password.isSome || e.confirmPassword.isSome

/-- How a reset-password submission ends. -/
inductive ResetOutcome where
  | blockedMissingToken (message : String)  -- `setServerError(...); return` before any fetch
  | blockedValidation                       -- `markTouchedAll(); return` before any fetch
  | submitted (out : FwcOut)                -- went through `fetchWithCsrf`
  deriving Repr

/-- `token = (searchParams.get("token") ?? "").trim()` of the
reset-password page. -/
def resetToken (tokenParam : Option String) : String := jsTrim (tokenParam.getD "")

/-- The `fetchWithCsrf` call of the reset-password page's happy path. -/
def resetRequest (w : World) (apiBase : String) (tokenParam : Option String) (f : ResetForm) :
    FwcOut :=
  fetchWithCsrf w (apiBase ++ "/api/auth/reset-password")
    { method := some "POST",
      headers := [("Content-Type", "application/json")],
      body := some (jsonObj [jsonField "token" (resetToken tokenParam),
                             jsonField "newPassword" f.password]) }

/-- Reset-password `onSubmit`.  The handler blocks on a missing/blank
token, then on validation errors, and only then calls `fetchWithCsrf`.
The second component is the trace of network events the submission
performed. -/
def resetOnSubmit (w : World) (apiBase : String) (tokenParam : Option String) (f : ResetForm) :
    ResetOutcome × List Event :=
  if (resetToken tokenParam).isEmpty then
    (.blockedMissingToken "Missing or invalid reset token. Please use the link from your email.", [])
  else if hasResetErrors (validateReset f) then (.blockedValidation, [])
  else (.submitted (resetRequest w apiBase tokenParam f), (resetRequest w apiBase tokenParam f).events)

/-! ### Register page (RELATED part_007: raw fetch + `ensureCsrfToken`) -/

/-- Oracle for one register submission: `document.cookie` at
`ensureCsrfToken`'s first read, `document.cookie` right after its
best-effort priming fetch of `/api/services` (note: no scheduling yield
here, unlike `fetchWithCsrf`), and the outcome of the register POST. -/
structure RegWorld where
  cookie0 : String
  cookiePrimed : String
  resp : Option Nat
  deriving Repr, DecidableEq

/-- `ensureCsrfToken` (register page): read the cookie (`getCsrfToken`
is the same regex + `decodeURIComponent` as `getCsrfCookie`); if truthy
return it; else fire the best-effort priming fetch and re-read.  Returns
the value (or thrown error) together with the priming events. -/
def ensureCsrfToken (w : RegWorld) : Except JsError (Option String) × List Event :=
  match getCsrfCookie w.cookie0 with
  | .error e => (.error e, [])
  | .ok t0 =>
    if ¬ isFalsy t0 then (.ok t0, [])
    else
      match getCsrfCookie w.cookiePrimed with
      | .error e => (.error e, [.prime])
      | .ok t1 => (.ok t1, [.prime])

/-- The register form fields (validation gating is upstream of the
network code and not at issue in any claim about this page). -/
structure RegisterForm where
  name : String
  email : String
  password : String
  phone : String
  deriving Repr, DecidableEq

/-- Register `handleSubmit`, network part: a plain `fetch` of
`/api/auth/register` whose `X-XSRF-TOKEN` header is built directly from
`(await ensureCsrfToken(apiBase)) ?? ""` — not a `fetchWithCsrf` call,
and with no retry whatever the status. -/
def registerSubmit (w : RegWorld) (apiBase : String) (f : RegisterForm) : FwcOut :=
  match ensureCsrfToken w with
  | (.error e, evs) => { outcome := .error e, events := evs, final := {} }
  | (.ok t, evs) =>
    let token := t.getD ""
    let init : RequestInit :=
      { method := some "POST",
        credentials := some "include",
        headers := [("Content-Type", "application/json"), ("X-XSRF-TOKEN", token)],
        body := some (jsonObj [jsonField "name" (jsTrim f.name), jsonField "email" (jsTrim f.email),
                               jsonField "password" f.password, jsonField "phone" (jsTrim f.phone)]) }
    { outcome := match w.resp with | none => .error .networkError | some st => .ok st,
      events := evs ++ [.send (apiBase ++ "/api/auth/register") init],
      final := init }

/-! ### Navbar logout (RELATED part_012) -/

/-- The init object `handleLogout` passes to its plain `fetch`: a POST
with `credentials: "include"` and only an `Accept` header — no
`X-XSRF-TOKEN`, no priming, no retry. -/
def handleLogoutInit : RequestInit :=
  { method := some "POST",
    credentials := some "include",
    headers := [("Accept", "application/json")] }

/-- The network trace of `handleLogout`: exactly one raw `fetch`,
whose failure is swallowed (`catch {}` → local state is cleared and the
page hard-navigates home either way). -/
def handleLogoutEvents (apiBase : String) : List Event :=
  [.send (apiBase ++ "/api/auth/logout") handleLogoutInit]
/-! ## Header-object lemmas -/

theorem getHeader_cons (p : String × String) (t : List (String × String)) (k' : String) :
    getHeader (p :: t) k' = if p.1 = k' then some p.2 else getHeader t k' := by
  unfold getHeader
  by_cases h : p.1 = k'
  · rw [List.find?_cons_of_pos _ (by simpa using h)]
    simp [h]
  · rw [List.find?_cons_of_neg _ (by simpa using h)]
    simp [h]

theorem getHeader_map_update (hs : List (String × String)) (k v k' : String) (hne : k' ≠ k) :
    getHeader (hs.map (fun p => if p.1 = k then (k, v) else p)) k' = getHeader hs k' := by
  induction hs with
  | nil => rfl
  | cons p t ih =>
    have hk : ¬ ((k : String) = k') := fun h => hne h.symm
    by_cases hp : p.1 = k
    · have hp' : ¬ (p.1 = k') := by rw [hp]; exact hk
      simp [getHeader_cons, hp, hk, hp', ih]
    · by_cases hq : p.1 = k'
      · simp [getHeader_cons, hp, hq, hne]
      · simp [getHeader_cons, hp, hq, ih]

theorem getHeader_append_single (hs : List (String × String)) (k v k' : String) (hne : k' ≠ k) :
    getHeader (hs ++ [(k, v)]) k' = getHeader hs k' := by
  have hk : ¬ ((k : String) = k') := fun h => hne h.symm
  induction hs with
  | nil => simp [getHeader_cons, hk, getHeader]
  | cons p t ih =>
    by_cases hq : p.1 = k'
    · simp [getHeader_cons, hq]
    · simp [getHeader_cons, hq, ih]

/-- Frame property of the JS spread `{ ...hs, k: v }`: every other key
is unchanged. -/
theorem getHeader_setHeader_ne (hs : List (String × String)) (k v k' : String) (hne : k' ≠ k) :
    getHeader (setHeader hs k v) k' = getHeader hs k' := by
  unfold setHeader
  split
  · exact getHeader_map_update hs k v k' hne
  · exact getHeader_append_single hs k v k' hne

theorem getHeader_map_update_self (hs : List (String × String)) (k v : String)
    (h : hs.any (fun p => p.1 = k) = true) :
    getHeader (hs.map (fun p => if p.1 = k then (k, v) else p)) k = some v := by
  induction hs with
  | nil => simp at h
  | cons p t ih =>
    simp only [List.any_cons, Bool.or_eq_true, decide_eq_true_eq] at h
    by_cases hp : p.1 = k
    · simp [getHeader_cons, hp]
    · simp [getHeader_cons, hp, ih (by simpa using h.resolve_left hp)]

theorem getHeader_append_single_self (hs : List (String × String)) (k v : String)
    (h : hs.any (fun p => p.1 = k) = false) :
    getHeader (hs ++ [(k, v)]) k = some v := by
  induction hs with
  | nil => simp [getHeader, List.find?]
  | cons p t ih =>
    simp only [List.any_cons, Bool.or_eq_false_iff, decide_eq_false_iff_not] at h
    simp [getHeader_cons, h.1, ih h.2]

/-- The JS spread `{ ...hs, k: v }` maps `k` to `v`. -/
theorem getHeader_setHeader_self (hs : List (String × String)) (k v : String) :
    getHeader (setHeader hs k v) k = some v := by
  unfold setHeader
  split
  case isTrue h => exact getHeader_map_update_self hs k v h
  case isFalse h => exact getHeader_append_single_self hs k v (Bool.not_eq_true _ ▸ h)

/-! ## Shape lemmas for `fetchWithCsrf` -/

/-- The retry request built in the 403 branch. -/
def retryInitOf (init2 : RequestInit) (t : Option String) : RequestInit :=
  { init2 with headers := setHeader init2.headers "X-XSRF-TOKEN" (t.getD "") }

/-- The events `fetchAndRetry` appends after the first send. -/
def retryEvents (w : World) (input : String) (init2 : RequestInit) : List Event :=
  match w.resp1 with
  | none => []
  | some st1 =>
    if st1 = 403 ∧ needsCsrf init2.method then
      match getCsrfCookie w.cookieRetryPrimed with
      | .error _ => [.prime]
      | .ok t => [.prime, .send input (retryInitOf init2 t)]
    else []

/-- The outcome `fetchAndRetry` settles with. -/
def retryOutcome (w : World) (init2 : RequestInit) : Except JsError Nat :=
  match w.resp1 with
  | none => .error .networkError
  | some st1 =>
    if st1 = 403 ∧ needsCsrf init2.method then
      match getCsrfCookie w.cookieRetryPrimed with
      | .error e => .error e
      | .ok _ =>
        match w.resp2 with
        | none => .error .networkError
        | some st2 => .ok st2
    else .ok st1

theorem fetchAndRetry_eq (w : World) (input : String) (init2 : RequestInit) (evs : List Event) :
    fetchAndRetry w input init2 evs =
      { outcome := retryOutcome w init2,
        events := evs ++ [.send input init2] ++ retryEvents w input init2,
        final := init2 } := by
  unfold fetchAndRetry retryEvents retryOutcome retryInitOf
  cases hw : w.resp1 with
  | none => simp
  | some st1 =>
    by_cases hc : st1 = 403 ∧ needsCsrf init2.method
    · simp only [if_pos hc]
      cases hg : getCsrfCookie w.cookieRetryPrimed with
      | error e => simp
      | ok t => cases hr : w.resp2 <;> simp
    · simp only [if_neg hc]
      simp

/-- `init` after the unconditional in-place forcing of credentials and
cache by `fetchWithCsrf`. -/
def forcedInit (init0 : RequestInit) : RequestInit :=
  { init0 with credentials := some "include", cache := some (init0.cache.getD "no-store") }

/-- The token-acquisition step for a mutating request: the value
attached as `X-XSRF-TOKEN` (or the thrown error) together with the
priming/yield events it performed. -/
def acquireCsrf (w : World) : Except JsError String × List Event :=
  match getCsrfCookie w.cookie0 with
  | .error e => (.error e, [])
  | .ok t0 =>
    if isFalsy t0 then
      match getCsrfCookie w.cookiePrimed with
      | .error e => (.error e, [.prime, .tick])
      | .ok t1 => (.ok (t1.getD ""), [.prime, .tick])
    else (.ok (t0.getD ""), [])

theorem forcedInit_method (i : RequestInit) : (forcedInit i).method = i.method := rfl

theorem forcedInit_headers (i : RequestInit) : (forcedInit i).headers = i.headers := rfl

theorem forcedInit_body (i : RequestInit) : (forcedInit i).body = i.body := rfl

theorem forcedInit_signal (i : RequestInit) : (forcedInit i).signal = i.signal := rfl

theorem forcedInit_credentials (i : RequestInit) : (forcedInit i).credentials = some "include" := rfl

theorem forcedInit_cache (i : RequestInit) : (forcedInit i).cache = some (i.cache.getD "no-store") := rfl

theorem retryInitOf_method (i : RequestInit) (t : Option String) :
    (retryInitOf i t).method = i.method := rfl

theorem retryInitOf_headers (i : RequestInit) (t : Option String) :
    (retryInitOf i t).headers = setHeader i.headers "X-XSRF-TOKEN" (t.getD "") := rfl

/-- `fetchWithCsrf`, factored through `acquireCsrf` and `fetchAndRetry`. -/
theorem fetchWithCsrf_eq (w : World) (input : String) (init0 : RequestInit) :
    fetchWithCsrf w input init0 =
      if needsCsrf init0.method then
        match acquireCsrf w with
        | (.error e, evs) => { outcome := .error e, events := evs, final := forcedInit init0 }
        | (.ok tok, evs) => fetchAndRetry w input (retryInitOf (forcedInit init0) (some tok)) evs
      else fetchAndRetry w input (forcedInit init0) [] := by
  unfold fetchWithCsrf acquireCsrf retryInitOf forcedInit
  by_cases hm : needsCsrf init0.method
  · simp only [if_pos hm]
    cases hg : getCsrfCookie w.cookie0 with
    | error e => simp [hm]
    | ok t0 =>
      by_cases hf : isFalsy t0
      · simp only [if_pos hf]
        cases hp : getCsrfCookie w.cookiePrimed with
        | error e => simp [hm, hf, hg]
        | ok t1 => simp [hm, hf, hg]
      · simp [hm, hf, hg]
  · simp [hm]

theorem sendsOf_append (a b : List Event) : sendsOf (a ++ b) = sendsOf a ++ sendsOf b := by
  simp [sendsOf]

theorem sendsOf_nil : sendsOf [] = [] := rfl

theorem sendsOf_prime_tick : sendsOf [.prime, .tick] = [] := rfl

theorem sendsOf_send (u : String) (i : RequestInit) : sendsOf [.send u i] = [(u, i)] := rfl

theorem acquireCsrf_sends (w : World) : sendsOf (acquireCsrf w).2 = [] := by
  unfold acquireCsrf
  cases getCsrfCookie w.cookie0 with
  | error e => rfl
  | ok t0 =>
    by_cases hf : isFalsy t0
    · simp only [if_pos hf]
      cases getCsrfCookie w.cookiePrimed <;> rfl
    · simp only [if_neg hf]
      rfl

theorem fetchAndRetry_retry_spec (w : World) (input : String) (init2 : RequestInit)
    (evs : List Event) (hevs : sendsOf evs = []) :
    (sendsOf (fetchAndRetry w input init2 evs).events).length ≤ 2 ∧
    ((sendsOf (fetchAndRetry w input init2 evs).events).length = 2 →
        needsCsrf init2.method = true ∧ w.resp1 = some 403) ∧
    (∀ r1 r2, sendsOf (fetchAndRetry w input init2 evs).events = [r1, r2] →
        ∃ t, getCsrfCookie w.cookieRetryPrimed = .ok t ∧
          r2 = (input, retryInitOf r1.2 t) ∧
          (fetchAndRetry w input init2 evs).outcome =
            (match w.resp2 with
             | none => Except.error JsError.networkError
             | some s => Except.ok s)) := by
  rw [fetchAndRetry_eq]
  simp only [sendsOf_append, hevs, List.nil_append, sendsOf_send]
  unfold retryEvents retryOutcome
  cases hw : w.resp1 with
  | none => simp [sendsOf]
  | some st1 =>
    by_cases hc : st1 = 403 ∧ needsCsrf init2.method = true
    · simp only [if_pos hc]
      cases hg : getCsrfCookie w.cookieRetryPrimed with
      | error e => simp [sendsOf]
      | ok t =>
        refine ⟨by simp [sendsOf], fun _ => ⟨hc.2, by rw [hc.1]⟩, ?_⟩
        intro r1 r2 heq
        simp only [sendsOf, List.filterMap_cons, List.filterMap_nil] at heq
        have h1 : (input, init2) = r1 := by
          have := congrArg (fun l => l.head?) heq
          simpa using this
        have h2 : (input, retryInitOf init2 t) = r2 := by
          have := congrArg (fun l => l.getLast?) heq
          simpa using this
        exact ⟨t, rfl, by rw [← h2, ← h1], rfl⟩
    · simp [if_neg hc, sendsOf]

theorem fetchAndRetry_send_shapes (w : World) (input : String) (init2 : RequestInit)
    (evs : List Event) (hevs : sendsOf evs = []) :
    ∀ r ∈ sendsOf (fetchAndRetry w input init2 evs).events,
      r.1 = input ∧
      (r.2 = init2 ∨ ∃ t, r.2 = retryInitOf init2 t) := by
  rw [fetchAndRetry_eq]
  simp only [sendsOf_append, hevs, List.nil_append, sendsOf_send]
  unfold retryEvents
  cases hw : w.resp1 with
  | none => simp [sendsOf]
  | some st1 =>
    by_cases hc : st1 = 403 ∧ needsCsrf init2.method = true
    · simp only [if_pos hc]
      cases hg : getCsrfCookie w.cookieRetryPrimed with
      | error e =>
        intro r hr
        simp [sendsOf] at hr
        simp [hr]
      | ok t =>
        intro r hr
        simp [sendsOf] at hr
        rcases hr with h | h <;> simp [h]
    · simp only [if_neg hc]
      intro r hr
      simp [sendsOf] at hr
      simp [hr]

/-- Every request `fetchWithCsrf` actually sends: same resource, method,
body and signal as the caller supplied; credentials forced to
`"include"`; cache as supplied, defaulting to `"no-store"`; and all
caller headers preserved except possibly `X-XSRF-TOKEN`. -/
theorem fetchWithCsrf_send_fields (w : World) (input : String) (init0 : RequestInit) :
    ∀ r ∈ sendsOf (fetchWithCsrf w input init0).events,
      r.1 = input ∧
      r.2.method = init0.method ∧
      r.2.body = init0.body ∧
      r.2.signal = init0.signal ∧
      r.2.credentials = some "include" ∧
      r.2.cache = some (init0.cache.getD "no-store") ∧
      (∀ k, k ≠ "X-XSRF-TOKEN" → getHeader r.2.headers k = getHeader init0.headers k) := by
  rw [fetchWithCsrf_eq]
  by_cases hm : needsCsrf init0.method
  · simp only [if_pos hm]
    cases hacq : acquireCsrf w with
    | mk res evs =>
      have hevs : sendsOf evs = [] := by
        have h := acquireCsrf_sends w
        rw [hacq] at h
        exact h
      cases res with
      | error e => simp [hevs]
      | ok tok =>
        intro r hr
        obtain ⟨hurl, hshape⟩ :=
          fetchAndRetry_send_shapes w input (retryInitOf (forcedInit init0) (some tok)) evs hevs r hr
        refine ⟨hurl, ?_⟩
        rcases hshape with h | ⟨t, h⟩ <;>
          exact ⟨by simp [h, retryInitOf, forcedInit], by simp [h, retryInitOf, forcedInit],
                 by simp [h, retryInitOf, forcedInit], by simp [h, retryInitOf, forcedInit],
                 by simp [h, retryInitOf, forcedInit],
                 fun k hk => by
                   simp only [h, retryInitOf, forcedInit]
                   rw [getHeader_setHeader_ne _ _ _ _ hk]
                   try rw [getHeader_setHeader_ne _ _ _ _ hk]⟩
  · simp only [if_neg hm]
    intro r hr
    obtain ⟨hurl, hshape⟩ := fetchAndRetry_send_shapes w input (forcedInit init0) [] rfl r hr
    refine ⟨hurl, ?_⟩
    rcases hshape with h | ⟨t, h⟩ <;>
      exact ⟨by simp [h, retryInitOf, forcedInit], by simp [h, retryInitOf, forcedInit],
             by simp [h, retryInitOf, forcedInit], by simp [h, retryInitOf, forcedInit],
             by simp [h, retryInitOf, forcedInit],
             fun k hk => by
               simp only [h, retryInitOf, forcedInit]
               try rw [getHeader_setHeader_ne _ _ _ _ hk]⟩

/-! ## Concrete worlds and inits used to instantiate the theorems -/

/-- A world with a present cookie and a 200 response. -/
def wOk : World :=
  { cookie0 := "XSRF-TOKEN=aa", cookiePrimed := "", resp1 := some 200,
    cookieRetryPrimed := "", resp2 := some 200 }

/-- A world whose first response is 403 and whose cookie reads succeed:
it drives the retry path, and the retry also answers 403. -/
def wRetry : World :=
  { cookie0 := "XSRF-TOKEN=aa", cookiePrimed := "", resp1 := some 403,
    cookieRetryPrimed := "XSRF-TOKEN=bb", resp2 := some 403 }

/-- A world whose jar is empty at first and holds a fresh token after
priming. -/
def wEmptyJar : World :=
  { cookie0 := "", cookiePrimed := "XSRF-TOKEN=fresh", resp1 := some 200,
    cookieRetryPrimed := "", resp2 := some 200 }

/-- A plain JSON POST init. -/
def postInit : RequestInit :=
  { method := some "POST", headers := [("Content-Type", "application/json")], body := some "b" }

/-! ## C1 — at most one retry, only on a 403 to a mutating request -/

/-- C1: for every `fetchWithCsrf` call, at most two requests are ever
sent (at most one retry); a second send happens only when the request
was mutating and the first response was 403; when the retry happens it
is the first request with only `X-XSRF-TOKEN` rebound to the token
freshly re-read after re-priming, and the caller receives the retry's
response — even a second 403 — with no further retry. -/
theorem fetchWithCsrf_at_most_one_retry (w : World) (input : String) (init0 : RequestInit) :
    (sendsOf (fetchWithCsrf w input init0).events).length ≤ 2 ∧
    ((sendsOf (fetchWithCsrf w input init0).events).length = 2 →
        needsCsrf init0.method = true ∧ w.resp1 = some 403) ∧
    (∀ r1 r2, sendsOf (fetchWithCsrf w input init0).events = [r1, r2] →
        ∃ t, getCsrfCookie w.cookieRetryPrimed = .ok t ∧
          r2 = (input, retryInitOf r1.2 t) ∧
          getHeader r2.2.headers "X-XSRF-TOKEN" = some (t.getD "") ∧
          (fetchWithCsrf w input init0).outcome =
            (match w.resp2 with
             | none => Except.error JsError.networkError
             | some s => Except.ok s)) := by
  rw [fetchWithCsrf_eq]
  by_cases hm : needsCsrf init0.method
  · simp only [if_pos hm]
    cases hacq : acquireCsrf w with
    | mk res evs =>
      have hevs : sendsOf evs = [] := by
        have h := acquireCsrf_sends w
        rw [hacq] at h
        exact h
      cases res with
      | error e =>
        simp only [sendsOf] at hevs ⊢
        rw [hevs]
        simp
      | ok tok =>
        have hspec := fetchAndRetry_retry_spec w input (retryInitOf (forcedInit init0) (some tok)) evs hevs
        refine ⟨hspec.1, fun h2 => ⟨hm, (hspec.2.1 h2).2⟩, ?_⟩
        intro r1 r2 heq
        obtain ⟨t, hg, hr2, hout⟩ := hspec.2.2 r1 r2 heq
        refine ⟨t, hg, hr2, ?_, hout⟩
        rw [hr2]
        exact getHeader_setHeader_self _ _ _
  · simp only [if_neg hm]
    have hspec := fetchAndRetry_retry_spec w input (forcedInit init0) [] rfl
    refine ⟨hspec.1, fun h2 => absurd ((hspec.2.1 h2).1) (by simpa [forcedInit] using hm), ?_⟩
    intro r1 r2 heq
    have h2 : (sendsOf (fetchAndRetry w input (forcedInit init0) []).events).length = 2 := by
      rw [heq]
      rfl
    exact absurd ((hspec.2.1 h2).1) (by simpa [forcedInit] using hm)

/-- Witness for C1 at a concrete 403 world: two sends occur, and the
theorem's side conditions hold there. -/
theorem fetchWithCsrf_at_most_one_retry_witness :
    (sendsOf (fetchWithCsrf wRetry "/u" postInit).events).length ≤ 2 ∧
    (needsCsrf postInit.method = true ∧ wRetry.resp1 = some 403) :=
  ⟨(fetchWithCsrf_at_most_one_retry wRetry "/u" postInit).1,
   (fetchWithCsrf_at_most_one_retry wRetry "/u" postInit).2.1 (by rfl)⟩

theorem retryEvents_non403 (w : World) (input : String) (init2 : RequestInit)
    (h : needsCsrf init2.method = false) :
    retryEvents w input init2 = [] := by
  unfold retryEvents
  split
  · rfl
  · rw [if_neg]
    rintro ⟨-, hh⟩
    rw [h] at hh
    exact Bool.false_ne_true hh

/-! ## C3 — credentials forced; cache only defaulted -/

/-- C3 counterexample: a caller-supplied `cache` option survives —
`init.cache = init.cache ?? "no-store"` keeps `"force-cache"`, so
caching is not disabled "regardless of caller-supplied options". -/
theorem fetchWithCsrf_cache_honored_counterexample :
    (sendsOf (fetchWithCsrf wOk "/u"
        { method := some "POST", cache := some "force-cache" }).events).map
      (fun r => r.2.cache) = [some "force-cache"] := by rfl

/-- C3 amended: every request sent by `fetchWithCsrf` has credentials
forced to `"include"` regardless of caller options, while the cache
option is the caller's own value and is only defaulted to `"no-store"`
when the caller supplied none. -/
theorem fetchWithCsrf_credentials_and_cache (w : World) (input : String) (init0 : RequestInit) :
    ∀ r ∈ sendsOf (fetchWithCsrf w input init0).events,
      r.2.credentials = some "include" ∧
      r.2.cache = some (init0.cache.getD "no-store") := by
  intro r hr
  have h := fetchWithCsrf_send_fields w input init0 r hr
  exact ⟨h.2.2.2.2.1, h.2.2.2.2.2.1⟩

/-- The single request `fetchWithCsrf wOk "/u" postInit` sends. -/
def sentOkPost : RequestInit :=
  { method := some "POST",
    headers := [("Content-Type", "application/json"), ("X-XSRF-TOKEN", "aa")],
    body := some "b", credentials := some "include", cache := some "no-store" }

/-- Witness for amended C3 at a concrete sent request. -/
theorem fetchWithCsrf_credentials_and_cache_witness :
    sentOkPost.credentials = some "include" ∧
    sentOkPost.cache = some (postInit.cache.getD "no-store") :=
  fetchWithCsrf_credentials_and_cache wOk "/u" postInit ("/u", sentOkPost) (by decide)

/-! ## C4 — three non-mutating methods, and reads touch nothing -/

/-- The classification stated by the spec sentence: mutating iff the
method is not one of the TWO read-only/no-body-effect methods (GET and
HEAD).  Modelled from the spec's words, for comparison with the
source's `needsCsrf`. -/
def specTwoMethodMutating (method : Option String) : Bool :=
  let m := jsToUpper (method.getD "GET")
  m ≠ "GET" && m ≠ "HEAD"

/-- C4 counterexample: `OPTIONS` is a third method the code classifies
as non-mutating, so "mutating iff not one of the two read-only methods"
fails at `OPTIONS`. -/
theorem needsCsrf_two_methods_counterexample :
    needsCsrf (some "OPTIONS") = false ∧ specTwoMethodMutating (some "OPTIONS") = true := by
  decide

/-- C4 amended: a method is mutating iff its upper-casing is none of the
THREE methods `GET`, `HEAD`, `OPTIONS`; and every non-mutating request
is sent exactly once with its header object untouched (so no
`X-XSRF-TOKEN` is attached) and with no priming call, even when no token
cookie exists. -/
theorem needsCsrf_classification_and_reads_untouched :
    (∀ m : Option String, needsCsrf m = true ↔
        (jsToUpper (m.getD "GET") ≠ "GET" ∧ jsToUpper (m.getD "GET") ≠ "HEAD" ∧
         jsToUpper (m.getD "GET") ≠ "OPTIONS")) ∧
    (∀ (w : World) (input : String) (init0 : RequestInit), needsCsrf init0.method = false →
        (fetchWithCsrf w input init0).events = [.send input (forcedInit init0)] ∧
        (forcedInit init0).headers = init0.headers ∧
        primesOf (fetchWithCsrf w input init0).events = []) := by
  constructor
  · intro m
    simp [needsCsrf, Bool.and_eq_true, and_assoc]
  · intro w input init0 hm
    have hm' : ¬ needsCsrf init0.method = true := by simp [hm]
    rw [fetchWithCsrf_eq, if_neg hm', fetchAndRetry_eq,
        retryEvents_non403 w input (forcedInit init0) hm]
    exact ⟨rfl, rfl, rfl⟩

/-- Witness for amended C4: `PATCH` is mutating; a bare GET init in an
empty-jar world goes out once, untouched, with no priming. -/
theorem needsCsrf_classification_and_reads_untouched_witness :
    (needsCsrf (some "PATCH") = true ↔
        (jsToUpper ((some "PATCH").getD "GET") ≠ "GET" ∧
         jsToUpper ((some "PATCH").getD "GET") ≠ "HEAD" ∧
         jsToUpper ((some "PATCH").getD "GET") ≠ "OPTIONS")) ∧
    ((fetchWithCsrf wEmptyJar "/u" { method := none }).events =
        [.send "/u" (forcedInit { method := none })] ∧
      (forcedInit { method := none } : RequestInit).headers =
        ({ method := none } : RequestInit).headers ∧
      primesOf (fetchWithCsrf wEmptyJar "/u" { method := none }).events = []) :=
  ⟨needsCsrf_classification_and_reads_untouched.1 (some "PATCH"),
   needsCsrf_classification_and_reads_untouched.2 wEmptyJar "/u" { method := none } (by decide)⟩

/-! ## C5 — priming on an empty jar; header always attached unless the
re-read throws -/

/-- World for the C5 counterexample: empty jar; after priming the cookie
value is a malformed percent-escape. -/
def wBadPrime : World :=
  { cookie0 := "", cookiePrimed := "XSRF-TOKEN=%", resp1 := some 200,
    cookieRetryPrimed := "", resp2 := some 200 }

/-- C5 counterexample: with no cookie present, a mutating request whose
post-priming cookie value is the malformed escape `%` makes the wrapper
throw a `URIError` client-side after priming and yielding — no request
is ever sent, so the outgoing request does not "always" carry the
header. -/
theorem fetchWithCsrf_prime_throw_counterexample :
    (fetchWithCsrf wBadPrime "/u" postInit).outcome = .error .uriError ∧
    (fetchWithCsrf wBadPrime "/u" postInit).events = [.prime, .tick] :=
  ⟨rfl, rfl⟩

/-- C5 amended: for every mutating request issued while no CSRF cookie
exists, the wrapper performs exactly one priming call, then one
scheduling yield, then re-reads the cookie; provided the re-read value
percent-decodes, the request goes out as the next event carrying
`X-XSRF-TOKEN` bound to the re-read value (the empty string when the
cookie is still absent); when the re-read throws, the wrapper rejects
without sending anything. -/
theorem fetchWithCsrf_primes_on_empty_jar (w : World) (input : String) (init0 : RequestInit)
    (hm : needsCsrf init0.method = true)
    (h0 : getCsrfCookie w.cookie0 = .ok none) :
    (∀ t1, getCsrfCookie w.cookiePrimed = .ok t1 →
        ∃ rest, (fetchWithCsrf w input init0).events =
            .prime :: .tick ::
              .send input (retryInitOf (forcedInit init0) (some (t1.getD ""))) :: rest ∧
          getHeader (retryInitOf (forcedInit init0) (some (t1.getD ""))).headers "X-XSRF-TOKEN" =
            some (t1.getD "")) ∧
    (∀ e, getCsrfCookie w.cookiePrimed = .error e →
        (fetchWithCsrf w input init0).outcome = .error e ∧
        (fetchWithCsrf w input init0).events = [.prime, .tick]) := by
  constructor
  · intro t1 h1
    have ha : acquireCsrf w = (.ok (t1.getD ""), [.prime, .tick]) := by
      unfold acquireCsrf
      rw [h0, h1]
      rfl
    refine ⟨retryEvents w input (retryInitOf (forcedInit init0) (some (t1.getD ""))), ?_,
            getHeader_setHeader_self _ _ _⟩
    rw [fetchWithCsrf_eq, if_pos hm, ha]
    show (fetchAndRetry w input (retryInitOf (forcedInit init0) (some (t1.getD "")))
        [.prime, .tick]).events = _
    rw [fetchAndRetry_eq]
    rfl
  · intro e h1
    have ha : acquireCsrf w = (.error e, [.prime, .tick]) := by
      unfold acquireCsrf
      rw [h0, h1]
      rfl
    rw [fetchWithCsrf_eq, if_pos hm, ha]
    exact ⟨rfl, rfl⟩

/-- Witness for amended C5 in the empty-jar world: one prime, one tick,
then the POST carrying the freshly primed token. -/
theorem fetchWithCsrf_primes_on_empty_jar_witness :
    ∃ rest, (fetchWithCsrf wEmptyJar "/u" postInit).events =
        .prime :: .tick ::
          .send "/u" (retryInitOf (forcedInit postInit) (some ((some "fresh").getD ""))) :: rest ∧
      getHeader (retryInitOf (forcedInit postInit) (some ((some "fresh").getD ""))).headers
        "X-XSRF-TOKEN" = some ((some "fresh").getD "") :=
  (fetchWithCsrf_primes_on_empty_jar wEmptyJar "/u" postInit (by decide) (by rfl)).1
    (some "fresh") (by rfl)

/-! ## C10 — header/body/method frame of the attachment and the retry -/

/-- C10: for a mutating request the sent requests preserve the caller's
method, body and other init fields, and every caller header except
`X-XSRF-TOKEN`, which is overwritten with the cookie-derived token; the
one 403 retry resends the same method, body and other fields with only
`X-XSRF-TOKEN` rebound to the freshly re-read value; and the wrapper
mutates the caller's init object in place into the first-attempt init
(credentials/cache forced, token header attached). -/
theorem fetchWithCsrf_frame (w : World) (input : String) (init0 : RequestInit)
    (hm : needsCsrf init0.method = true) (tok : String) (evs : List Event)
    (hacq : acquireCsrf w = (.ok tok, evs)) :
    (∀ r ∈ sendsOf (fetchWithCsrf w input init0).events,
        r.2.method = init0.method ∧ r.2.body = init0.body ∧
        r.2.credentials = some "include" ∧ r.2.cache = some (init0.cache.getD "no-store") ∧
        r.2.signal = init0.signal ∧
        (∀ k, k ≠ "X-XSRF-TOKEN" → getHeader r.2.headers k = getHeader init0.headers k)) ∧
    getHeader ((fetchWithCsrf w input init0).final).headers "X-XSRF-TOKEN" = some tok ∧
    (fetchWithCsrf w input init0).final = retryInitOf (forcedInit init0) (some tok) ∧
    (∀ r1 r2, sendsOf (fetchWithCsrf w input init0).events = [r1, r2] →
        ∃ t, getCsrfCookie w.cookieRetryPrimed = .ok t ∧
          r2.2.method = r1.2.method ∧ r2.2.body = r1.2.body ∧
          r2.2.credentials = r1.2.credentials ∧ r2.2.cache = r1.2.cache ∧
          r2.2.signal = r1.2.signal ∧
          getHeader r2.2.headers "X-XSRF-TOKEN" = some (t.getD "") ∧
          (∀ k, k ≠ "X-XSRF-TOKEN" → getHeader r2.2.headers k = getHeader r1.2.headers k)) := by
  have hevs : sendsOf evs = [] := by
    have h := acquireCsrf_sends w
    rw [hacq] at h
    exact h
  have hspec := fetchAndRetry_retry_spec w input (retryInitOf (forcedInit init0) (some tok)) evs hevs
  have hfin : (fetchWithCsrf w input init0).final = retryInitOf (forcedInit init0) (some tok) := by
    rw [fetchWithCsrf_eq, if_pos hm, hacq]
    show (fetchAndRetry w input (retryInitOf (forcedInit init0) (some tok)) evs).final = _
    rw [fetchAndRetry_eq]
  refine ⟨?_, ?_, hfin, ?_⟩
  · intro r hr
    have h := fetchWithCsrf_send_fields w input init0 r hr
    exact ⟨h.2.1, h.2.2.1, h.2.2.2.2.1, h.2.2.2.2.2.1, h.2.2.2.1, h.2.2.2.2.2.2⟩
  · rw [hfin]
    exact getHeader_setHeader_self _ _ _
  · intro r1 r2 heq
    rw [fetchWithCsrf_eq, if_pos hm, hacq] at heq
    have heq' : sendsOf (fetchAndRetry w input
        (retryInitOf (forcedInit init0) (some tok)) evs).events = [r1, r2] := heq
    obtain ⟨t, hg, hr2, -⟩ := hspec.2.2 r1 r2 heq'
    refine ⟨t, hg, ?_⟩
    rw [hr2]
    exact ⟨rfl, rfl, rfl, rfl, rfl, getHeader_setHeader_self _ _ _,
           fun k hk => getHeader_setHeader_ne _ _ _ _ hk⟩

/-- Witness for C10 at the concrete 403 world: the caller's init ends up
mutated into the first-attempt init with the token attached. -/
theorem fetchWithCsrf_frame_witness :
    getHeader ((fetchWithCsrf wRetry "/u" postInit).final).headers "X-XSRF-TOKEN" = some "aa" ∧
    (fetchWithCsrf wRetry "/u" postInit).final = retryInitOf (forcedInit postInit) (some "aa") :=
  ⟨(fetchWithCsrf_frame wRetry "/u" postInit (by decide) "aa" [] (by rfl)).2.1,
   (fetchWithCsrf_frame wRetry "/u" postInit (by decide) "aa" [] (by rfl)).2.2.1⟩

/-! ## C7 / C8 — session verifier outcomes -/

/-- C7 counterexample: a 500 response yields exactly the plain
unauthenticated value — the same outcome as a 401 — so the caller
cannot tell "could not determine" from "definitely not logged in". -/
theorem fetchMe_500_counterexample :
    fetchMe (.response 500 "oops") = .ok .authFalse ∧
    fetchMe (.response 401 "") = .ok .authFalse := ⟨rfl, rfl⟩

/-- C7 amended: only a transport-level failure surfaces as a distinct
error outcome (the promise rejects); every non-ok HTTP status —
including unexpected 5xx — returns the plain `{ authenticated: false }`
value, indistinguishable from the unauthorized case. -/
theorem fetchMe_failure_outcomes :
    fetchMe .networkError = .error .networkError ∧
    (∀ st body, resOk st = false → fetchMe (.response st body) = .ok .authFalse) := by
  refine ⟨rfl, ?_⟩
  intro st body h
  simp [fetchMe, h]

/-- Witness for amended C7: a 503 response is reported as plain
unauthenticated. -/
theorem fetchMe_failure_outcomes_witness :
    fetchMe (.response 503 "x") = .ok .authFalse :=
  fetchMe_failure_outcomes.2 503 "x" (by decide)

/-- C8: `fetchMe` against a 401 response returns the
`{ authenticated: false }` value as a normal resolution — the
unauthorized status is a deterministic first-class outcome, not a
thrown error. -/
theorem fetchMe_401_unauthenticated (body : String) :
    fetchMe (.response 401 body) = .ok .authFalse := rfl

/-! ## C9 — reset-password blocks client-side without a token -/

/-- C9: when the reset-password page was reached with no token
parameter, or one that is blank after trimming, submission is blocked
client-side — the handler sets the missing-token error and returns
before issuing any request, so the network trace is empty. -/
theorem resetOnSubmit_blocks_without_token (w : World) (apiBase : String)
    (tokenParam : Option String) (f : ResetForm)
    (h : resetToken tokenParam = "") :
    resetOnSubmit w apiBase tokenParam f =
      (.blockedMissingToken
          "Missing or invalid reset token. Please use the link from your email.", []) := by
  unfold resetOnSubmit
  rw [h]
  rfl

/-- Witness for C9: a token parameter of blanks trims to empty and blocks
the submission with no network call. -/
theorem resetOnSubmit_blocks_without_token_witness :
    resetOnSubmit wOk "http://localhost:8080" (some "   ")
        { password := "x", confirmPassword := "y" } =
      (.blockedMissingToken
          "Missing or invalid reset token. Please use the link from your email.", []) :=
  resetOnSubmit_blocks_without_token wOk "http://localhost:8080" (some "   ")
    { password := "x", confirmPassword := "y" } (by rfl)

/-! ## C2 — which flows actually go through the CSRF wrapper -/

theorem ensureCsrfToken_sends (w : RegWorld) : sendsOf (ensureCsrfToken w).2 = [] := by
  unfold ensureCsrfToken
  cases getCsrfCookie w.cookie0 with
  | error e => rfl
  | ok t0 =>
    by_cases hf : isFalsy t0
    · simp only [hf]
      cases getCsrfCookie w.cookiePrimed <;> rfl
    · simp only [hf]
      rfl

/-- On a mutating request, every request `fetchWithCsrf` sends carries
an `X-XSRF-TOKEN` header. -/
theorem fetchWithCsrf_mutating_sends_header (w : World) (input : String) (init0 : RequestInit)
    (hm : needsCsrf init0.method = true) :
    ∀ r ∈ sendsOf (fetchWithCsrf w input init0).events,
      ∃ v, getHeader r.2.headers "X-XSRF-TOKEN" = some v := by
  rw [fetchWithCsrf_eq, if_pos hm]
  cases hacq : acquireCsrf w with
  | mk res evs =>
    have hevs : sendsOf evs = [] := by
      have h := acquireCsrf_sends w
      rw [hacq] at h
      exact h
    cases res with
    | error e =>
      intro r hr
      simp only [sendsOf] at hevs
      simp only [sendsOf] at hr
      rw [hevs] at hr
      cases hr
    | ok tok =>
      intro r hr
      obtain ⟨-, hsh⟩ :=
        fetchAndRetry_send_shapes w input (retryInitOf (forcedInit init0) (some tok)) evs hevs r hr
      rcases hsh with h | ⟨t, h⟩
      · exact ⟨tok, by rw [h]; exact getHeader_setHeader_self _ _ _⟩
      · exact ⟨t.getD "", by rw [h]; exact getHeader_setHeader_self _ _ _⟩

/-- C2 counterexample: the logout flow's mutating POST is a plain fetch
— a single send, no priming, and no `X-XSRF-TOKEN` header at all —
whereas `fetchWithCsrf` on the very same init would attach the header
(shown on the final, in-place-mutated init). -/
theorem handleLogout_bypasses_csrf :
    handleLogoutEvents "http://localhost:8080" =
      [.send "http://localhost:8080/api/auth/logout" handleLogoutInit] ∧
    getHeader handleLogoutInit.headers "X-XSRF-TOKEN" = none ∧
    primesOf (handleLogoutEvents "http://localhost:8080") = [] ∧
    getHeader ((fetchWithCsrf wOk "http://localhost:8080/api/auth/logout"
        handleLogoutInit).final).headers "X-XSRF-TOKEN" = some "aa" :=
  ⟨rfl, rfl, rfl, rfl⟩

/-- C2 amended: the login, forgot-password, reset-password and
resend-verification POSTs all go through `fetchWithCsrf`, so every
request they send carries an `X-XSRF-TOKEN` header produced by the
cookie-read/priming/retry algorithm; the register flow instead builds
its header directly from the token `ensureCsrfToken` read, over a raw
fetch that never retries (a single send, whatever the status); and the
logout flow sends one raw POST with no CSRF header and no priming at
all. -/
theorem auth_flows_csrf_paths :
    (∀ (w : World) (apiBase email password : String),
        ∀ r ∈ sendsOf (loginSubmit w apiBase email password).events,
          ∃ v, getHeader r.2.headers "X-XSRF-TOKEN" = some v) ∧
    (∀ (w : World) (apiBase email : String),
        ∀ r ∈ sendsOf (forgotPasswordSubmit w apiBase email).events,
          ∃ v, getHeader r.2.headers "X-XSRF-TOKEN" = some v) ∧
    (∀ (w : World) (apiBase email sig : String),
        ∀ r ∈ sendsOf (resendVerificationSubmit w apiBase email sig).events,
          ∃ v, getHeader r.2.headers "X-XSRF-TOKEN" = some v) ∧
    (∀ (w : World) (apiBase : String) (tokenParam : Option String) (f : ResetForm) out evs,
        resetOnSubmit w apiBase tokenParam f = (.submitted out, evs) →
        ∀ r ∈ sendsOf out.events, ∃ v, getHeader r.2.headers "X-XSRF-TOKEN" = some v) ∧
    (∀ (w : RegWorld) (apiBase : String) (f : RegisterForm),
        (sendsOf (registerSubmit w apiBase f).events).length ≤ 1 ∧
        (∀ r ∈ sendsOf (registerSubmit w apiBase f).events,
          ∃ evs t, ensureCsrfToken w = (.ok t, evs) ∧
            getHeader r.2.headers "X-XSRF-TOKEN" = some (t.getD ""))) ∧
    (∀ apiBase : String,
        sendsOf (handleLogoutEvents apiBase) =
          [(apiBase ++ "/api/auth/logout", handleLogoutInit)] ∧
        getHeader handleLogoutInit.headers "X-XSRF-TOKEN" = none ∧
        primesOf (handleLogoutEvents apiBase) = []) := by
  refine ⟨?_, ?_, ?_, ?_, ?_, ?_⟩
  · intro w apiBase email password
    exact fetchWithCsrf_mutating_sends_header w _ _ rfl
  · intro w apiBase email
    exact fetchWithCsrf_mutating_sends_header w _ _ rfl
  · intro w apiBase email sig
    exact fetchWithCsrf_mutating_sends_header w _ _ rfl
  · intro w apiBase tokenParam f out evs hsub
    unfold resetOnSubmit at hsub
    split at hsub
    · cases hsub
    · split at hsub
      · cases hsub
      · have hout : out = resetRequest w apiBase tokenParam f := by
          have := congrArg Prod.fst hsub
          cases this
          rfl
        rw [hout]
        exact fetchWithCsrf_mutating_sends_header w _ _ rfl
  · intro w apiBase f
    unfold registerSubmit
    cases hens : ensureCsrfToken w with
    | mk res evs =>
      have hevs : sendsOf evs = [] := by
        have h := ensureCsrfToken_sends w
        rw [hens] at h
        exact h
      cases res with
      | error e =>
        constructor
        · simp only [sendsOf] at hevs
          simp only [sendsOf, hevs]
          decide
        · intro r hr
          simp only [sendsOf] at hevs
          simp only [sendsOf] at hr
          rw [hevs] at hr
          cases hr
      | ok t =>
        constructor
        · simp only [sendsOf_append, hevs, List.nil_append, sendsOf_send]
          simp
        · intro r hr
          simp only [sendsOf_append, hevs, List.nil_append, sendsOf_send] at hr
          rw [List.mem_singleton] at hr
          refine ⟨evs, t, rfl, ?_⟩
          rw [hr]
          rfl
  · intro apiBase
    exact ⟨rfl, rfl, rfl⟩

/-- The init object the login page's POST actually goes out with in the
world `wOk`. -/
def sentLoginInit : RequestInit :=
  { method := some "POST",
    headers := [("Content-Type", "application/json"), ("X-XSRF-TOKEN", "aa")],
    body := some (jsonObj [jsonField "email" "e", jsonField "password" "p"]),
    credentials := some "include", cache := some "no-store" }

/-- Witness for amended C2: the concrete login POST in `wOk` carries an
`X-XSRF-TOKEN` header. -/
theorem auth_flows_csrf_paths_witness :
    ∃ v, getHeader sentLoginInit.headers "X-XSRF-TOKEN" = some v :=
  auth_flows_csrf_paths.1 wOk "" "e" "p" ("/api/auth/login", sentLoginInit) (by decide)

/-! ## C6 — the cookie reader: decoding round trip, absence, and throws -/

theorem hexDigitVal_hexUpper : ∀ i : Fin 16, hexDigitVal (hexUpper i.val) = some i.val := by
  decide

theorem hexUpper_ne_semi : ∀ i : Fin 16, ¬ hexUpper i.val = ';' := by decide

theorem uriLex_raw (c : Char) (hc : ¬ c = '%') (z : List Char) (t : List UriItem)
    (hz : uriLex z = .ok t) : uriLex (c :: z) = .ok (.raw c :: t) := by
  unfold uriLex
  rw [if_neg hc, hz]

theorem uriLex_escByte (b : Nat) (hb : b < 128) (z : List Char) (t : List UriItem)
    (hz : uriLex z = .ok t) : uriLex (escByte b ++ z) = .ok (.esc b :: t) := by
  have h1 : hexDigitVal (hexUpper (b / 16)) = some (b / 16) :=
    hexDigitVal_hexUpper ⟨b / 16, by omega⟩
  have h2 : hexDigitVal (hexUpper (b % 16)) = some (b % 16) :=
    hexDigitVal_hexUpper ⟨b % 16, by omega⟩
  have hb' : 16 * (b / 16) + b % 16 = b := Nat.div_add_mod b 16
  show uriLex ('%' :: hexUpper (b / 16) :: hexUpper (b % 16) :: z) = .ok (.esc b :: t)
  unfold uriLex
  rw [if_pos rfl]
  simp only [h1, h2, hz, hb']

/-- The item each ASCII character of an encoded string lexes back to. -/
def asciiItem (c : Char) : UriItem :=
  if uriUnreserved c then .raw c else .esc c.toNat

theorem encode_cons (c : Char) (cs : List Char) :
    encodeURIComponent (c :: cs) =
      (if uriUnreserved c then [c] else ((utf8Bytes c.toNat).map escByte).flatten) ++
        encodeURIComponent cs := by
  simp [encodeURIComponent]

theorem uriLex_encode (s : List Char) (h : ∀ c ∈ s, c.toNat < 128) :
    uriLex (encodeURIComponent s) = .ok (s.map asciiItem) := by
  induction s with
  | nil => rfl
  | cons c cs ih =>
    have hc : c.toNat < 128 := h c (by simp)
    have ih' := ih (fun x hx => h x (by simp [hx]))
    rw [encode_cons]
    by_cases hu : uriUnreserved c
    · rw [if_pos hu]
      have hcp : ¬ c = '%' := by
        intro hcc
        rw [hcc] at hu
        exact absurd hu (by decide)
      rw [List.singleton_append, List.map_cons]
      rw [uriLex_raw c hcp _ _ ih']
      simp [asciiItem, hu]
    · rw [if_neg hu]
      have hbytes : utf8Bytes c.toNat = [c.toNat] := by
        unfold utf8Bytes
        rw [if_pos (by omega)]
      rw [hbytes]
      simp only [List.map_cons, List.map_nil, List.flatten_cons, List.flatten_nil,
                 List.append_nil]
      rw [uriLex_escByte c.toNat hc _ _ ih']
      simp [asciiItem, hu]

theorem uriDecodeAux_raw (c : Char) (r : List UriItem) (t : List Char)
    (hr : uriDecodeAux none r = .ok t) :
    uriDecodeAux none (.raw c :: r) = .ok (c :: t) := by
  show (match uriDecodeAux none r with
        | .ok t => (Except.ok (c :: t) : Except JsError (List Char))
        | .error e => .error e) = Except.ok (c :: t)
  rw [hr]

theorem uriDecodeAux_asciiEsc (b : Nat) (hb : b < 128) (r : List UriItem) (t : List Char)
    (hr : uriDecodeAux none r = .ok t) :
    uriDecodeAux none (.esc b :: r) = .ok (Char.ofNat b :: t) := by
  show (if b < 0x80 then
          (match uriDecodeAux none r with
           | .ok t => (Except.ok (Char.ofNat b :: t) : Except JsError (List Char))
           | .error e => .error e)
        else if b < 0xC0 then .error .uriError
        else if b < 0xE0 then uriDecodeAux (some (1, b - 0xC0, 0x80)) r
        else if b < 0xF0 then uriDecodeAux (some (2, b - 0xE0, 0x800)) r
        else if b < 0xF8 then uriDecodeAux (some (3, b - 0xF0, 0x10000)) r
        else .error .uriError) = Except.ok (Char.ofNat b :: t)
  rw [if_pos hb, hr]

theorem uriDecodeItems_ascii (s : List Char) (h : ∀ c ∈ s, c.toNat < 128) :
    uriDecodeItems (s.map asciiItem) = .ok s := by
  induction s with
  | nil => rfl
  | cons c cs ih =>
    have hc : c.toNat < 128 := h c (by simp)
    have ih' : uriDecodeAux none (cs.map asciiItem) = .ok cs :=
      ih (fun x hx => h x (by simp [hx]))
    simp only [List.map_cons]
    by_cases hu : uriUnreserved c
    · have ha : asciiItem c = .raw c := by rw [asciiItem, if_pos hu]
      rw [ha]
      exact uriDecodeAux_raw c _ cs ih'
    · have ha : asciiItem c = .esc c.toNat := by rw [asciiItem, if_neg hu]
      rw [ha]
      have hstep := uriDecodeAux_asciiEsc c.toNat hc _ cs ih'
      rw [Char.ofNat_toNat] at hstep
      exact hstep

theorem encode_no_semi (s : List Char) (h : ∀ c ∈ s, c.toNat < 128) :
    ∀ c ∈ encodeURIComponent s, ¬ c = ';' := by
  induction s with
  | nil => intro c hc; cases hc
  | cons c0 cs ih =>
    have hc0 : c0.toNat < 128 := h c0 (by simp)
    have ih' := ih (fun x hx => h x (by simp [hx]))
    rw [encode_cons]
    intro c hc
    rcases List.mem_append.mp hc with hm | hm
    · by_cases hu : uriUnreserved c0
      · rw [if_pos hu] at hm
        rw [List.mem_singleton] at hm
        intro hsemi
        rw [← hm, hsemi] at hu
        exact absurd hu (by decide)
      · rw [if_neg hu] at hm
        have hbytes : utf8Bytes c0.toNat = [c0.toNat] := by
          unfold utf8Bytes
          rw [if_pos (by omega)]
        rw [hbytes] at hm
        simp [escByte] at hm
        rcases hm with hm | hm | hm
        · rw [hm]; decide
        · rw [hm]; exact hexUpper_ne_semi ⟨c0.toNat / 16, by omega⟩
        · rw [hm]; exact hexUpper_ne_semi ⟨c0.toNat % 16, by omega⟩
    · exact ih' c hm

/-- C6 counterexample: a cookie whose value is the malformed escape `%`
makes the reader throw a `URIError` — it is not true that the reader
never throws. -/
theorem getCsrfCookie_throws_counterexample :
    getCsrfCookie "XSRF-TOKEN=%" = .error .uriError := rfl

/-- C6 amended: when the regex does not match, the reader returns the
absence marker and cannot throw; when the `XSRF-TOKEN` cookie is present
with a value produced by percent-encoding an (ASCII) original — e.g.
one containing reserved characters such as `=` or `;` — the reader
returns exactly the original decoded value; but a present cookie whose
value contains a malformed percent-escape throws a `URIError` instead
of returning. -/
theorem getCsrfCookie_decode_and_absence :
    (∀ s : String, cookieMatch s.data = none → getCsrfCookie s = .ok none) ∧
    (∀ v : String, (∀ c ∈ v.data, c.toNat < 128) →
        getCsrfCookie ("XSRF-TOKEN=" ++ (⟨encodeURIComponent v.data⟩ : String)) =
          .ok (some v)) ∧
    getCsrfCookie "XSRF-TOKEN=abc%3Ddef" = .ok (some "abc=def") := by
  refine ⟨?_, ?_, rfl⟩
  · intro s h
    unfold getCsrfCookie
    rw [h]
  · intro v h
    unfold getCsrfCookie
    have hdata : ("XSRF-TOKEN=" ++ (⟨encodeURIComponent v.data⟩ : String)).data =
        xsrfName ++ encodeURIComponent v.data := by
      rw [String.data_append]
      rfl
    rw [hdata]
    have hmatch : cookieMatch (xsrfName ++ encodeURIComponent v.data) =
        some (encodeURIComponent v.data) := by
      unfold cookieMatch captureAt
      rw [if_pos (List.isPrefixOf_iff_prefix.mpr (List.prefix_append _ _))]
      rw [List.drop_left]
      rw [List.takeWhile_eq_self_iff.mpr (by simpa using encode_no_semi v.data h)]
    rw [hmatch]
    have hdec : decodeURIComponent (encodeURIComponent v.data) = .ok v.data := by
      unfold decodeURIComponent
      rw [uriLex_encode v.data h]
      exact uriDecodeItems_ascii v.data h
    show (match decodeURIComponent (encodeURIComponent v.data) with
          | .ok d => Except.ok (some (⟨d⟩ : String))
          | .error e => Except.error e) = Except.ok (some v)
    rw [hdec]

/-- Witness for amended C6: a value with reserved characters (`=`, `;`)
round-trips through encoding and the cookie reader. -/
theorem getCsrfCookie_decode_and_absence_witness :
    getCsrfCookie ("XSRF-TOKEN=" ++ (⟨encodeURIComponent "a=b;c".data⟩ : String)) =
      .ok (some "a=b;c") :=
  getCsrfCookie_decode_and_absence.2.1 "a=b;c" (by decide)
